import Mathlib

/-!
Shallow embedding of the image layout engine of `src/app.py` (SKU Image
Combiner): the canvas builder, the three layout strategies
(`combine_side_by_side`, `combine_overlay_equal`, `combine_overlay_hero`)
and the alpha-composition primitive `paste_with_alpha`.

Modelling conventions:
* Python floats are modelled as exact rationals (`ℚ`); the float literals
  `0.16` and `0.75` of the source become `16/100` and `3/4`, and the
  percent sliders `gap_ratio / 100.0`, `outer_padding_ratio / 100.0`
  become exact rational divisions.
* Python `int(x)` truncates toward zero: `pytrunc`.
* Python `//` is floor division: `Int.fdiv`.
* Python exceptions are modelled with `Except PyErr`: float division by
  zero raises `ZeroDivisionError`, and Pillow's `Image.resize` raises
  `ValueError` whenever a requested target dimension is smaller than 1
  (Pillow checks `xsize < 1 || ysize < 1` before resampling).
* Pillow rasters are `Img`: a pixel size, a mode flag (`rgba = true` for
  mode "RGBA", `false` for "RGB"), and a total pixel function.  For "RGB"
  images the embedding keeps the alpha component uniformly 255.  The
  Lanczos resampling kernel is external to the repository, so the pixel
  content of a resized image is a parameter (a `Resample` function); the
  geometry of resizing (target size, preserved mode, failure on degenerate
  sizes) is fixed by the embedding.
-/

namespace App

set_option maxRecDepth 100000

/-- One RGBA pixel value (channels 0..255; "RGB"-mode images carry a = 255). -/
structure Px where
  r : ℕ
  g : ℕ
  b : ℕ
  a : ℕ
  deriving DecidableEq

/-- An in-memory raster: width, height, mode flag ("RGBA" vs "RGB"), pixels.
The pixel function is total; only the rectangle `[0,w) × [0,h)` is meaningful. -/
structure Img where
  w : ℕ
  h : ℕ
  rgba : Bool
  px : ℤ → ℤ → Px

/-- The Python exceptions the layout code can raise: `ZeroDivisionError`
from a float division by zero, `ValueError` from Pillow's `Image.resize`
when a target dimension is < 1. -/
inductive PyErr where
  | zeroDivisionError
  | valueError
  deriving DecidableEq

instance {ε α : Type} [DecidableEq ε] [DecidableEq α] : DecidableEq (Except ε α) := fun
  | .error e, .error f =>
      if h : e = f then .isTrue (by rw [h]) else .isFalse (fun c => by cases c; exact h rfl)
  | .error _, .ok _ => .isFalse (fun c => by cases c)
  | .ok _, .error _ => .isFalse (fun c => by cases c)
  | .ok a, .ok c =>
      if h : a = c then .isTrue (by rw [h]) else .isFalse (fun c => by cases c; exact h rfl)

/-- Python `int(x)` applied to a float: truncation toward zero. -/
def pytrunc (q : ℚ) : ℤ := if 0 ≤ q then ⌊q⌋ else ⌈q⌉

/-- Python float division, which raises `ZeroDivisionError` on a zero
denominator (it does not return an IEEE infinity). -/
def fdiv (x y : ℚ) : Except PyErr ℚ :=
  if y = 0 then .error .zeroDivisionError else .ok (x / y)

/-- `gap_px = int(canvas_size * (gap_ratio / 100.0))` from
`combine_side_by_side` (src/app.py line 179). -/
def gap_px (canvas_size gapR : ℕ) : ℤ :=
  pytrunc ((canvas_size : ℚ) * ((gapR : ℚ) / 100))

/-- `padding_px = int(canvas_size * (outer_padding_ratio / 100.0))`
(src/app.py lines 180, 227, 282). -/
def padding_px (canvas_size padR : ℕ) : ℤ :=
  pytrunc ((canvas_size : ℚ) * ((padR : ℚ) / 100))

/-- `avail_width = canvas_size - 2 * padding_px - gap_px` (src/app.py line 182). -/
def sbs_avail_width (canvas_size gapR padR : ℕ) : ℤ :=
  (canvas_size : ℤ) - 2 * padding_px canvas_size padR - gap_px canvas_size gapR

/-- `avail_height = canvas_size - 2 * padding_px` (src/app.py line 183). -/
def sbs_avail_height (canvas_size padR : ℕ) : ℤ :=
  (canvas_size : ℤ) - 2 * padding_px canvas_size padR

/-- `OVERLAY_OFFSET_RATIO = 0.16` (src/app.py line 112), as an exact rational. -/
def OVERLAY_OFFSET : ℚ := 16 / 100

/-- `HERO_SCALE_FACTOR = 0.75` (src/app.py line 113), as an exact rational. -/
def HERO_SCALE_FACTOR : ℚ := 3 / 4

/-- All geometry computed by `combine_side_by_side` (src/app.py lines 168-214):
pixel gap and padding, the uniform scale, the two target sizes and the two
paste positions. -/
structure SBSGeom where
  gp : ℤ
  pp : ℤ
  s : ℚ
  new_w1 : ℤ
  new_h1 : ℤ
  new_w2 : ℤ
  new_h2 : ℤ
  x1 : ℤ
  x2 : ℤ
  y1 : ℤ
  y2 : ℤ
  deriving DecidableEq

/-- The geometry part of `combine_side_by_side` (src/app.py lines 179-209),
in source order: the two height divisions are unguarded float divisions, the
width division is guarded by `if (w1 + w2) > 0 else s_height`. -/
def combine_side_by_side_geom (w1 h1 w2 h2 canvas_size gapR padR : ℕ) :
    Except PyErr SBSGeom := do
  let gp := gap_px canvas_size gapR
  let pp := padding_px canvas_size padR
  let avail_width : ℚ := ((sbs_avail_width canvas_size gapR padR : ℤ) : ℚ)
  let avail_height : ℚ := ((sbs_avail_height canvas_size padR : ℤ) : ℚ)
  let sh1 ← fdiv avail_height (h1 : ℚ)
  let sh2 ← fdiv avail_height (h2 : ℚ)
  let s_height := min sh1 sh2
  let s_width : ℚ :=
    if 0 < w1 + w2 then avail_width / ((w1 : ℚ) + (w2 : ℚ)) else s_height
  let s := min s_height s_width
  let new_w1 := pytrunc ((w1 : ℚ) * s)
  let new_h1 := pytrunc ((h1 : ℚ) * s)
  let new_w2 := pytrunc ((w2 : ℚ) * s)
  let new_h2 := pytrunc ((h2 : ℚ) * s)
  let total_width := new_w1 + gp + new_w2
  let x1 := Int.fdiv ((canvas_size : ℤ) - total_width) 2
  let x2 := x1 + new_w1 + gp
  let final_h := max new_h1 new_h2
  let top_y := Int.fdiv ((canvas_size : ℤ) - final_h) 2
  let bottom_y := top_y + final_h
  let y1 := bottom_y - new_h1
  let y2 := bottom_y - new_h2
  .ok ⟨gp, pp, s, new_w1, new_h1, new_w2, new_h2, x1, x2, y1, y2⟩

/-- All geometry computed by `combine_overlay_equal` (src/app.py lines
217-263). -/
structure EqGeom where
  pp : ℤ
  offset_px : ℤ
  s : ℚ
  new_w1 : ℤ
  new_h1 : ℤ
  new_w2 : ℤ
  new_h2 : ℤ
  x1 : ℤ
  x2 : ℤ
  y1 : ℤ
  y2 : ℤ
  deriving DecidableEq

/-- The geometry part of `combine_overlay_equal` (src/app.py lines 227-256):
the height division `inner_height / float(max_h)` is unguarded, the width
division is guarded by `if max_w > 0 else s_height`. -/
def overlay_equal_geom (w1 h1 w2 h2 canvas_size padR : ℕ) : Except PyErr EqGeom := do
  let pp := padding_px canvas_size padR
  let inner_width : ℤ := (canvas_size : ℤ) - 2 * pp
  let inner_height : ℤ := (canvas_size : ℤ) - 2 * pp
  let offset_px := pytrunc ((inner_width : ℚ) * OVERLAY_OFFSET)
  let max_h := max h1 h2
  let max_w := max w1 w2
  let s_height ← fdiv (inner_height : ℚ) (max_h : ℚ)
  let s_width : ℚ :=
    if 0 < max_w then ((inner_width : ℚ) - (offset_px : ℚ)) / (max_w : ℚ) else s_height
  let s := min s_height s_width
  let new_w1 := pytrunc ((w1 : ℚ) * s)
  let new_h1 := pytrunc ((h1 : ℚ) * s)
  let new_w2 := pytrunc ((w2 : ℚ) * s)
  let new_h2 := pytrunc ((h2 : ℚ) * s)
  let cx := Int.fdiv (canvas_size : ℤ) 2
  let cy := Int.fdiv (canvas_size : ℤ) 2
  let x1 := cx - Int.fdiv new_w1 2 - Int.fdiv offset_px 2
  let x2 := cx - Int.fdiv new_w2 2 + Int.fdiv offset_px 2
  let y1 := cy - Int.fdiv new_h1 2
  let y2 := cy - Int.fdiv new_h2 2
  .ok ⟨pp, offset_px, s, new_w1, new_h1, new_w2, new_h2, x1, x2, y1, y2⟩

/-- All geometry computed by `combine_overlay_hero` (src/app.py lines
266-333).  Field names follow the source: `_h` is the hero, `_s` the
secondary. -/
structure HeroGeom where
  pp : ℤ
  offset_px : ℤ
  s_hero : ℚ
  s_sec : ℚ
  new_w_h : ℤ
  new_h_h : ℤ
  new_w_s : ℤ
  new_h_s : ℤ
  x_h : ℤ
  y_h : ℤ
  x_s : ℤ
  y_s : ℤ
  deriving DecidableEq

/-- The geometry part of `combine_overlay_hero` (src/app.py lines 282-325):
both the height-constraint division (`inner_height / max(h_h, k*h_s)`) and
the width-constraint division (`... / (w_h + k*w_s)`) are unguarded. -/
def overlay_hero_geom (w1 h1 w2 h2 canvas_size padR : ℕ) (hero_is_first : Bool) :
    Except PyErr HeroGeom := do
  let pp := padding_px canvas_size padR
  let inner_width : ℤ := (canvas_size : ℤ) - 2 * pp
  let inner_height : ℤ := (canvas_size : ℤ) - 2 * pp
  let w_h : ℚ := if hero_is_first then (w1 : ℚ) else (w2 : ℚ)
  let h_h : ℚ := if hero_is_first then (h1 : ℚ) else (h2 : ℚ)
  let w_s : ℚ := if hero_is_first then (w2 : ℚ) else (w1 : ℚ)
  let h_s : ℚ := if hero_is_first then (h2 : ℚ) else (h1 : ℚ)
  let offset_px := pytrunc ((inner_width : ℚ) * OVERLAY_OFFSET)
  let k := HERO_SCALE_FACTOR
  let height_constraint ← fdiv (inner_height : ℚ) (max h_h (k * h_s))
  let width_constraint ←
    fdiv (2 * (inner_width : ℚ) - 2 * (offset_px : ℚ)) (w_h + k * w_s)
  let s_hero := min height_constraint width_constraint
  let s_sec := s_hero * k
  let new_w_h := pytrunc (w_h * s_hero)
  let new_h_h := pytrunc (h_h * s_hero)
  let new_w_s := pytrunc (w_s * s_sec)
  let new_h_s := pytrunc (h_s * s_sec)
  let cx := Int.fdiv (canvas_size : ℤ) 2
  let cy := Int.fdiv (canvas_size : ℤ) 2
  let x_h := cx - Int.fdiv new_w_h 2 - Int.fdiv offset_px 2
  let x_s := cx - Int.fdiv new_w_s 2 + Int.fdiv offset_px 2
  let y_h := cy - Int.fdiv new_h_h 2
  let y_s := cy - Int.fdiv new_h_s 2
  .ok ⟨pp, offset_px, s_hero, s_sec, new_w_h, new_h_h, new_w_s, new_h_s, x_h, y_h, x_s, y_s⟩

/-- The background modes offered by the UI radio ("White", "Black",
"Transparent PNG"). -/
inductive BgMode where
  | white
  | black
  | transparent
  deriving DecidableEq

/-- `make_canvas` (src/app.py lines 117-122): an opaque white or black "RGB"
canvas, or a fully transparent "RGBA" canvas with white RGB. -/
def make_canvas (bg_mode : BgMode) (canvas_size : ℕ) : Img :=
  match bg_mode with
  | .white => ⟨canvas_size, canvas_size, false, fun _ _ => ⟨255, 255, 255, 255⟩⟩
  | .black => ⟨canvas_size, canvas_size, false, fun _ _ => ⟨0, 0, 0, 255⟩⟩
  | .transparent => ⟨canvas_size, canvas_size, true, fun _ _ => ⟨255, 255, 255, 0⟩⟩

/-- Pillow's per-channel mask blend `out = (bg*(255-a) + fg*a) / 255`
(exact at the endpoints: a = 0 keeps the background channel, a = 255 takes
the foreground channel). -/
def blend (c1 c2 a : ℕ) : ℕ := (c1 * (255 - a) + c2 * a) / 255

/-- Pillow `dest.paste(fg, (x, y), mask := fg alpha band)`: inside the paste
rectangle every channel is mask-blended; an "RGB" destination has no alpha
band, so its alpha stays 255 in the embedding. -/
def pasteMask (bg fg : Img) (x y : ℤ) : Img :=
  { bg with px := fun u v =>
      if x ≤ u ∧ u < x + (fg.w : ℤ) ∧ y ≤ v ∧ v < y + (fg.h : ℤ) then
        let p := fg.px (u - x) (v - y)
        let q := bg.px u v
        if bg.rgba then
          ⟨blend q.r p.r p.a, blend q.g p.g p.a, blend q.b p.b p.a, blend q.a p.a p.a⟩
        else
          ⟨blend q.r p.r p.a, blend q.g p.g p.a, blend q.b p.b p.a, 255⟩
      else bg.px u v }

/-- Pillow `dest.paste(fg, (x, y))` without a mask: opaque overwrite inside
the paste rectangle. -/
def pasteOpaque (bg fg : Img) (x y : ℤ) : Img :=
  { bg with px := fun u v =>
      if x ≤ u ∧ u < x + (fg.w : ℤ) ∧ y ≤ v ∧ v < y + (fg.h : ℤ) then
        fg.px (u - x) (v - y)
      else bg.px u v }

/-- `paste_with_alpha` (src/app.py lines 153-165).  RGBA onto RGBA is a
mask paste; RGBA onto RGB first flattens the source onto a solid patch of
the canvas's pixel at (0,0) (`tmp = Image.new("RGB", fg.size,
bg.getpixel((0,0)))`; the earlier `tmp` assignment on line 158 of the
source is dead code, immediately overwritten on line 161) and then pastes
the patch opaquely; anything else is an opaque paste. -/
def paste_with_alpha (bg fg : Img) (x y : ℤ) : Img :=
  if fg.rgba && bg.rgba then
    pasteMask bg fg x y
  else if fg.rgba && !bg.rgba then
    let c0 := bg.px 0 0
    let tmp : Img := ⟨fg.w, fg.h, false, fun _ _ => ⟨c0.r, c0.g, c0.b, 255⟩⟩
    let flat := pasteMask tmp fg 0 0
    pasteOpaque bg flat x y
  else
    pasteOpaque bg fg x y

/-- The pixel content of a Lanczos-resampled image: external to the
repository (a Pillow kernel), so kept as a parameter.  Arguments: source
image, target width, target height, pixel coordinates. -/
def Resample : Type := Img → ℕ → ℕ → ℤ → ℤ → Px

/-- Pillow `img.resize((w, h), Image.Resampling.LANCZOS)`: raises
`ValueError` when a target dimension is < 1, otherwise returns an image of
exactly the requested size, same mode, with externally-determined
(resampled) pixel content. -/
def pil_resize (resample : Resample) (im : Img) (wi hi : ℤ) : Except PyErr Img :=
  if 1 ≤ wi ∧ 1 ≤ hi then
    .ok ⟨wi.toNat, hi.toNat, im.rgba, resample im wi.toNat hi.toNat⟩
  else
    .error .valueError

/-- `combine_side_by_side` (src/app.py lines 168-214): canvas, geometry,
two resizes, two pastes (image1 then image2).  The source creates the
canvas first (`canvas = make_canvas(...)`); since `make_canvas` is pure the
call is written inline at its use site. -/
def combine_side_by_side (resample : Resample) (img1 img2 : Img)
    (canvas_size gapR padR : ℕ) (bg_mode : BgMode) : Except PyErr Img := do
  let gm ← combine_side_by_side_geom img1.w img1.h img2.w img2.h canvas_size gapR padR
  let img1_res ← pil_resize resample img1 gm.new_w1 gm.new_h1
  let img2_res ← pil_resize resample img2 gm.new_w2 gm.new_h2
  .ok (paste_with_alpha
        (paste_with_alpha (make_canvas bg_mode canvas_size) img1_res gm.x1 gm.y1)
        img2_res gm.x2 gm.y2)

/-- `combine_overlay_equal` (src/app.py lines 217-263): canvas, geometry,
two resizes, then image1 pasted as the back layer and image2 as the front
layer. -/
def combine_overlay_equal (resample : Resample) (img1 img2 : Img)
    (canvas_size padR : ℕ) (bg_mode : BgMode) : Except PyErr Img := do
  let gm ← overlay_equal_geom img1.w img1.h img2.w img2.h canvas_size padR
  let img1_res ← pil_resize resample img1 gm.new_w1 gm.new_h1
  let img2_res ← pil_resize resample img2 gm.new_w2 gm.new_h2
  .ok (paste_with_alpha
        (paste_with_alpha (make_canvas bg_mode canvas_size) img1_res gm.x1 gm.y1)
        img2_res gm.x2 gm.y2)

/-- `combine_overlay_hero` (src/app.py lines 266-333): canvas, hero
selection by `hero_is_first` (written inline), geometry, two resizes, hero
pasted first and the secondary on top. -/
def combine_overlay_hero (resample : Resample) (img1 img2 : Img)
    (canvas_size padR : ℕ) (bg_mode : BgMode) (hero_is_first : Bool) :
    Except PyErr Img := do
  let gm ← overlay_hero_geom img1.w img1.h img2.w img2.h canvas_size padR hero_is_first
  let hero_res ← pil_resize resample (if hero_is_first then img1 else img2) gm.new_w_h gm.new_h_h
  let sec_res ← pil_resize resample (if hero_is_first then img2 else img1) gm.new_w_s gm.new_h_s
  .ok (paste_with_alpha
        (paste_with_alpha (make_canvas bg_mode canvas_size) hero_res gm.x_h gm.y_h)
        sec_res gm.x_s gm.y_s)

/-- Closed form of `combine_side_by_side_geom` on inputs where neither
height division raises (a proof helper; the bridge lemma below shows it
agrees with the monadic definition whenever that one succeeds). -/
def sbs_fn (w1 h1 w2 h2 canvas_size gapR padR : ℕ) : SBSGeom :=
  let gp := gap_px canvas_size gapR
  let pp := padding_px canvas_size padR
  let avail_width : ℚ := ((sbs_avail_width canvas_size gapR padR : ℤ) : ℚ)
  let avail_height : ℚ := ((sbs_avail_height canvas_size padR : ℤ) : ℚ)
  let s_height := min (avail_height / (h1 : ℚ)) (avail_height / (h2 : ℚ))
  let s_width : ℚ :=
    if 0 < w1 + w2 then avail_width / ((w1 : ℚ) + (w2 : ℚ)) else s_height
  let s := min s_height s_width
  let new_w1 := pytrunc ((w1 : ℚ) * s)
  let new_h1 := pytrunc ((h1 : ℚ) * s)
  let new_w2 := pytrunc ((w2 : ℚ) * s)
  let new_h2 := pytrunc ((h2 : ℚ) * s)
  let total_width := new_w1 + gp + new_w2
  let x1 := Int.fdiv ((canvas_size : ℤ) - total_width) 2
  let x2 := x1 + new_w1 + gp
  let final_h := max new_h1 new_h2
  let top_y := Int.fdiv ((canvas_size : ℤ) - final_h) 2
  let bottom_y := top_y + final_h
  ⟨gp, pp, s, new_w1, new_h1, new_w2, new_h2, x1, x2, bottom_y - new_h1, bottom_y - new_h2⟩

/-- Closed form of `overlay_equal_geom` on inputs where the height division
does not raise (proof helper). -/
def eq_fn (w1 h1 w2 h2 canvas_size padR : ℕ) : EqGeom :=
  let pp := padding_px canvas_size padR
  let inner_width : ℤ := (canvas_size : ℤ) - 2 * pp
  let inner_height : ℤ := (canvas_size : ℤ) - 2 * pp
  let offset_px := pytrunc ((inner_width : ℚ) * OVERLAY_OFFSET)
  let max_h := max h1 h2
  let max_w := max w1 w2
  let s_height := (inner_height : ℚ) / (max_h : ℚ)
  let s_width : ℚ :=
    if 0 < max_w then ((inner_width : ℚ) - (offset_px : ℚ)) / (max_w : ℚ) else s_height
  let s := min s_height s_width
  let new_w1 := pytrunc ((w1 : ℚ) * s)
  let new_h1 := pytrunc ((h1 : ℚ) * s)
  let new_w2 := pytrunc ((w2 : ℚ) * s)
  let new_h2 := pytrunc ((h2 : ℚ) * s)
  let cx := Int.fdiv (canvas_size : ℤ) 2
  let cy := Int.fdiv (canvas_size : ℤ) 2
  let x1 := cx - Int.fdiv new_w1 2 - Int.fdiv offset_px 2
  let x2 := cx - Int.fdiv new_w2 2 + Int.fdiv offset_px 2
  let y1 := cy - Int.fdiv new_h1 2
  let y2 := cy - Int.fdiv new_h2 2
  ⟨pp, offset_px, s, new_w1, new_h1, new_w2, new_h2, x1, x2, y1, y2⟩

/-- Closed form of `overlay_hero_geom` on inputs where neither constraint
division raises (proof helper). -/
def hero_fn (w1 h1 w2 h2 canvas_size padR : ℕ) (hero_is_first : Bool) : HeroGeom :=
  let pp := padding_px canvas_size padR
  let inner_width : ℤ := (canvas_size : ℤ) - 2 * pp
  let inner_height : ℤ := (canvas_size : ℤ) - 2 * pp
  let w_h : ℚ := if hero_is_first then (w1 : ℚ) else (w2 : ℚ)
  let h_h : ℚ := if hero_is_first then (h1 : ℚ) else (h2 : ℚ)
  let w_s : ℚ := if hero_is_first then (w2 : ℚ) else (w1 : ℚ)
  let h_s : ℚ := if hero_is_first then (h2 : ℚ) else (h1 : ℚ)
  let offset_px := pytrunc ((inner_width : ℚ) * OVERLAY_OFFSET)
  let k := HERO_SCALE_FACTOR
  let height_constraint := (inner_height : ℚ) / max h_h (k * h_s)
  let width_constraint :=
    (2 * (inner_width : ℚ) - 2 * (offset_px : ℚ)) / (w_h + k * w_s)
  let s_hero := min height_constraint width_constraint
  let s_sec := s_hero * k
  let new_w_h := pytrunc (w_h * s_hero)
  let new_h_h := pytrunc (h_h * s_hero)
  let new_w_s := pytrunc (w_s * s_sec)
  let new_h_s := pytrunc (h_s * s_sec)
  let cx := Int.fdiv (canvas_size : ℤ) 2
  let cy := Int.fdiv (canvas_size : ℤ) 2
  let x_h := cx - Int.fdiv new_w_h 2 - Int.fdiv offset_px 2
  let x_s := cx - Int.fdiv new_w_s 2 + Int.fdiv offset_px 2
  let y_h := cy - Int.fdiv new_h_h 2
  let y_s := cy - Int.fdiv new_h_s 2
  ⟨pp, offset_px, s_hero, s_sec, new_w_h, new_h_h, new_w_s, new_h_s, x_h, y_h, x_s, y_s⟩

/-- Whether an `Except` computation succeeded. -/
def excIsOk {α : Type} : Except PyErr α → Bool
  | .ok _ => true
  | .error _ => false

/-- The error of a failed `Except` computation, if any. -/
def excErr {α : Type} : Except PyErr α → Option PyErr
  | .ok _ => none
  | .error e => some e

/-- The pixel of a successfully composed image at a coordinate (a dummy
pixel on failure). -/
def pixAt (e : Except PyErr Img) (u v : ℤ) : Px :=
  match e with
  | .ok im => im.px u v
  | .error _ => ⟨0, 0, 0, 0⟩

/-- A solid one-colour raster, for concrete test inputs. -/
def solidImg (w h : ℕ) (rgba : Bool) (c : Px) : Img := ⟨w, h, rgba, fun _ _ => c⟩

/-- Opaque red / opaque blue test pixels. -/
def redPx : Px := ⟨255, 0, 0, 255⟩

def bluePx : Px := ⟨0, 0, 255, 255⟩

/-- A concrete resample kernel for witnesses: every output pixel is the
source's pixel at (0,0).  (Claim theorems quantify over every kernel.) -/
def zeroResample : Resample := fun im _ _ _ _ => im.px 0 0

/-- A 4×4 RGBA test raster that is transparent at its pixel (0,0) and
opaque green elsewhere. -/
def holeImg : Img :=
  ⟨4, 4, true, fun u v => if u = 0 ∧ v = 0 then ⟨0, 255, 0, 0⟩ else ⟨0, 255, 0, 255⟩⟩

/-! ### General helper lemmas -/

theorem bind_ok_eq {α β : Type} (a : α) (f : α → Except PyErr β) :
    (Except.ok a >>= f : Except PyErr β) = f a := rfl

theorem bind_err_eq {α β : Type} (e : PyErr) (f : α → Except PyErr β) :
    ((Except.error e : Except PyErr α) >>= f : Except PyErr β) = .error e := rfl

theorem fdiv_ok {x y : ℚ} (hy : y ≠ 0) : fdiv x y = .ok (x / y) := by
  unfold fdiv; rw [if_neg hy]

theorem fdiv_err {x y : ℚ} (hy : y = 0) : fdiv x y = .error .zeroDivisionError := by
  unfold fdiv; rw [if_pos hy]

theorem pytrunc_of_nonneg {q : ℚ} (h : 0 ≤ q) : pytrunc q = ⌊q⌋ := if_pos h

theorem pytrunc_nonpos {q : ℚ} (h : q ≤ 0) : pytrunc q ≤ 0 := by
  unfold pytrunc
  split
  · calc ⌊q⌋ ≤ ⌊(0 : ℚ)⌋ := Int.floor_le_floor h
      _ = 0 := Int.floor_zero
  · exact Int.ceil_le.mpr (by exact_mod_cast h)

theorem floor_round_close (q : ℚ) : |⌊q⌋ - round q| ≤ 1 := by
  rw [round_eq]
  have h1 : ⌊q⌋ ≤ ⌊q + 1 / 2⌋ := Int.floor_le_floor (by linarith)
  have h2 : ⌊q + 1 / 2⌋ ≤ ⌊q + 1⌋ := Int.floor_le_floor (by linarith)
  have h3 : ⌊q + 1⌋ = ⌊q⌋ + 1 := by
    have := Int.floor_add_int q 1
    push_cast at this
    omega
  rw [abs_le]
  omega

theorem blend_zero (c1 c2 : ℕ) : blend c1 c2 0 = c1 := by unfold blend; omega

theorem blend_full (c1 c2 : ℕ) : blend c1 c2 255 = c2 := by unfold blend; omega

theorem pil_resize_ok (resample : Resample) (im : Img) (wi hi : ℤ)
    (h : 1 ≤ wi ∧ 1 ≤ hi) :
    pil_resize resample im wi hi =
      .ok ⟨wi.toNat, hi.toNat, im.rgba, resample im wi.toNat hi.toNat⟩ := by
  unfold pil_resize; rw [if_pos h]

theorem pil_resize_err (resample : Resample) (im : Img) (wi hi : ℤ)
    (h : ¬(1 ≤ wi ∧ 1 ≤ hi)) :
    pil_resize resample im wi hi = .error .valueError := by
  unfold pil_resize; rw [if_neg h]

theorem fdiv_zero_den (x : ℚ) : fdiv x 0 = .error .zeroDivisionError := fdiv_err rfl

/-! ### Bridge and inversion lemmas for the three geometry computations -/

theorem sbs_geom_eq (w1 h1 w2 h2 cs gapR padR : ℕ) (hh1 : h1 ≠ 0) (hh2 : h2 ≠ 0) :
    combine_side_by_side_geom w1 h1 w2 h2 cs gapR padR =
      .ok (sbs_fn w1 h1 w2 h2 cs gapR padR) := by
  have hc1 : ((h1 : ℚ)) ≠ 0 := Nat.cast_ne_zero.mpr hh1
  have hc2 : ((h2 : ℚ)) ≠ 0 := Nat.cast_ne_zero.mpr hh2
  simp only [combine_side_by_side_geom, sbs_fn, fdiv_ok hc1, fdiv_ok hc2, bind_ok_eq]

theorem sbs_geom_err_h1 (w1 h2 w2 cs gapR padR : ℕ) :
    combine_side_by_side_geom w1 0 w2 h2 cs gapR padR = .error .zeroDivisionError := by
  simp only [combine_side_by_side_geom, Nat.cast_zero, fdiv_zero_den, bind_err_eq]

theorem sbs_geom_err_h2 (w1 h1 w2 cs gapR padR : ℕ) (hh1 : h1 ≠ 0) :
    combine_side_by_side_geom w1 h1 w2 0 cs gapR padR = .error .zeroDivisionError := by
  have hc1 : ((h1 : ℚ)) ≠ 0 := Nat.cast_ne_zero.mpr hh1
  simp only [combine_side_by_side_geom, fdiv_ok hc1, bind_ok_eq, Nat.cast_zero,
    fdiv_zero_den, bind_err_eq]

theorem sbs_geom_inv {w1 h1 w2 h2 cs gapR padR : ℕ} {gm : SBSGeom}
    (hgm : combine_side_by_side_geom w1 h1 w2 h2 cs gapR padR = .ok gm) :
    h1 ≠ 0 ∧ h2 ≠ 0 ∧ gm = sbs_fn w1 h1 w2 h2 cs gapR padR := by
  by_cases hh1 : h1 = 0
  · subst hh1; rw [sbs_geom_err_h1] at hgm; cases hgm
  by_cases hh2 : h2 = 0
  · subst hh2; rw [sbs_geom_err_h2 _ _ _ _ _ _ hh1] at hgm; cases hgm
  · rw [sbs_geom_eq _ _ _ _ _ _ _ hh1 hh2] at hgm
    cases hgm
    exact ⟨hh1, hh2, rfl⟩

theorem eq_geom_eq (w1 h1 w2 h2 cs padR : ℕ) (hh : ¬(h1 = 0 ∧ h2 = 0)) :
    overlay_equal_geom w1 h1 w2 h2 cs padR = .ok (eq_fn w1 h1 w2 h2 cs padR) := by
  have hc : ((max h1 h2 : ℕ) : ℚ) ≠ 0 := by
    rw [Nat.cast_ne_zero]
    omega
  simp only [overlay_equal_geom, eq_fn, fdiv_ok hc, bind_ok_eq]

theorem eq_geom_err (w1 w2 cs padR : ℕ) :
    overlay_equal_geom w1 0 w2 0 cs padR = .error .zeroDivisionError := by
  have hc : ((max 0 0 : ℕ) : ℚ) = 0 := by norm_num
  simp only [overlay_equal_geom, fdiv_err hc, bind_err_eq]

theorem eq_geom_inv {w1 h1 w2 h2 cs padR : ℕ} {gm : EqGeom}
    (hgm : overlay_equal_geom w1 h1 w2 h2 cs padR = .ok gm) :
    ¬(h1 = 0 ∧ h2 = 0) ∧ gm = eq_fn w1 h1 w2 h2 cs padR := by
  by_cases hh : h1 = 0 ∧ h2 = 0
  · obtain ⟨rfl, rfl⟩ := hh
    rw [eq_geom_err] at hgm; cases hgm
  · rw [eq_geom_eq _ _ _ _ _ _ hh] at hgm
    cases hgm
    exact ⟨hh, rfl⟩

theorem hero_denom1_key (a b : ℕ) (hab : 0 < a ∨ 0 < b) :
    max (a : ℚ) (HERO_SCALE_FACTOR * (b : ℚ)) ≠ 0 := by
  intro h0
  have ha : (a : ℚ) ≤ 0 := h0 ▸ le_max_left _ _
  have hb : HERO_SCALE_FACTOR * (b : ℚ) ≤ 0 := h0 ▸ le_max_right _ _
  have han : (0 : ℚ) ≤ (a : ℚ) := Nat.cast_nonneg _
  have hbn : (0 : ℚ) ≤ (b : ℚ) := Nat.cast_nonneg _
  unfold HERO_SCALE_FACTOR at hb
  have haz : a = 0 := Nat.cast_eq_zero.mp (le_antisymm ha han)
  have hbz : b = 0 := Nat.cast_eq_zero.mp (le_antisymm (by linarith) hbn)
  rcases hab with h | h <;> omega

theorem hero_denom1_ne {h1 h2 : ℕ} (hh : ¬(h1 = 0 ∧ h2 = 0)) (hf : Bool) :
    max (if hf then (h1 : ℚ) else (h2 : ℚ))
      (HERO_SCALE_FACTOR * (if hf then (h2 : ℚ) else (h1 : ℚ))) ≠ 0 := by
  have hpos : 0 < h1 ∨ 0 < h2 := by omega
  cases hf
  · simpa using hero_denom1_key h2 h1 hpos.symm
  · simpa using hero_denom1_key h1 h2 hpos

theorem hero_denom2_key (a b : ℕ) (hab : 0 < a ∨ 0 < b) :
    (a : ℚ) + HERO_SCALE_FACTOR * (b : ℚ) ≠ 0 := by
  intro h0
  have han : (0 : ℚ) ≤ (a : ℚ) := Nat.cast_nonneg _
  have hbn : (0 : ℚ) ≤ (b : ℚ) := Nat.cast_nonneg _
  unfold HERO_SCALE_FACTOR at h0
  have haz : a = 0 := Nat.cast_eq_zero.mp (le_antisymm (by linarith) han)
  have hbz : b = 0 := Nat.cast_eq_zero.mp (le_antisymm (by linarith) hbn)
  rcases hab with h | h <;> omega

theorem hero_denom2_ne {w1 w2 : ℕ} (hw : ¬(w1 = 0 ∧ w2 = 0)) (hf : Bool) :
    (if hf then (w1 : ℚ) else (w2 : ℚ)) +
      HERO_SCALE_FACTOR * (if hf then (w2 : ℚ) else (w1 : ℚ)) ≠ 0 := by
  have hpos : 0 < w1 ∨ 0 < w2 := by omega
  cases hf
  · simpa using hero_denom2_key w2 w1 hpos.symm
  · simpa using hero_denom2_key w1 w2 hpos

theorem hero_geom_eq (w1 h1 w2 h2 cs padR : ℕ) (hf : Bool)
    (hh : ¬(h1 = 0 ∧ h2 = 0)) (hw : ¬(w1 = 0 ∧ w2 = 0)) :
    overlay_hero_geom w1 h1 w2 h2 cs padR hf =
      .ok (hero_fn w1 h1 w2 h2 cs padR hf) := by
  simp only [overlay_hero_geom, hero_fn, fdiv_ok (hero_denom1_ne hh hf),
    fdiv_ok (hero_denom2_ne hw hf), bind_ok_eq]

theorem hero_geom_err_h (w1 w2 cs padR : ℕ) (hf : Bool) :
    overlay_hero_geom w1 0 w2 0 cs padR hf = .error .zeroDivisionError := by
  have hc : max (if hf then ((0 : ℕ) : ℚ) else ((0 : ℕ) : ℚ))
      (HERO_SCALE_FACTOR * (if hf then ((0 : ℕ) : ℚ) else ((0 : ℕ) : ℚ))) = 0 := by
    cases hf <;> norm_num [HERO_SCALE_FACTOR]
  simp only [overlay_hero_geom, fdiv_err hc, bind_err_eq]

theorem hero_geom_err_w (h1 h2 cs padR : ℕ) (hf : Bool) (hh : ¬(h1 = 0 ∧ h2 = 0)) :
    overlay_hero_geom 0 h1 0 h2 cs padR hf = .error .zeroDivisionError := by
  have hc : (if hf then ((0 : ℕ) : ℚ) else ((0 : ℕ) : ℚ)) +
      HERO_SCALE_FACTOR * (if hf then ((0 : ℕ) : ℚ) else ((0 : ℕ) : ℚ)) = 0 := by
    cases hf <;> norm_num [HERO_SCALE_FACTOR]
  simp only [overlay_hero_geom, fdiv_ok (hero_denom1_ne hh hf), bind_ok_eq,
    fdiv_err hc, bind_err_eq]

theorem hero_geom_inv {w1 h1 w2 h2 cs padR : ℕ} {hf : Bool} {gm : HeroGeom}
    (hgm : overlay_hero_geom w1 h1 w2 h2 cs padR hf = .ok gm) :
    ¬(h1 = 0 ∧ h2 = 0) ∧ ¬(w1 = 0 ∧ w2 = 0) ∧
      gm = hero_fn w1 h1 w2 h2 cs padR hf := by
  by_cases hh : h1 = 0 ∧ h2 = 0
  · obtain ⟨rfl, rfl⟩ := hh
    rw [hero_geom_err_h] at hgm; cases hgm
  by_cases hw : w1 = 0 ∧ w2 = 0
  · obtain ⟨rfl, rfl⟩ := hw
    rw [hero_geom_err_w _ _ _ _ _ hh] at hgm; cases hgm
  · rw [hero_geom_eq _ _ _ _ _ _ _ hh hw] at hgm
    cases hgm
    exact ⟨hh, hw, rfl⟩

/-! ### Resize-error propagation helpers -/

theorem sbs_err_of_dim (resample : Resample) (img1 img2 : Img) (cs gapR padR : ℕ)
    (bg : BgMode) (gm : SBSGeom)
    (hgm : combine_side_by_side_geom img1.w img1.h img2.w img2.h cs gapR padR = .ok gm)
    (hd : gm.new_w1 < 1 ∨ gm.new_h1 < 1 ∨ gm.new_w2 < 1 ∨ gm.new_h2 < 1) :
    combine_side_by_side resample img1 img2 cs gapR padR bg = .error .valueError := by
  unfold combine_side_by_side
  rw [hgm, bind_ok_eq]
  by_cases hc1 : 1 ≤ gm.new_w1 ∧ 1 ≤ gm.new_h1
  · rw [pil_resize_ok resample img1 _ _ hc1, bind_ok_eq]
    have hc2 : ¬(1 ≤ gm.new_w2 ∧ 1 ≤ gm.new_h2) := by
      rcases hd with h | h | h | h <;> omega
    rw [pil_resize_err resample img2 _ _ hc2, bind_err_eq]
  · rw [pil_resize_err resample img1 _ _ hc1, bind_err_eq]

theorem eq_err_of_dim (resample : Resample) (img1 img2 : Img) (cs padR : ℕ)
    (bg : BgMode) (gm : EqGeom)
    (hgm : overlay_equal_geom img1.w img1.h img2.w img2.h cs padR = .ok gm)
    (hd : gm.new_w1 < 1 ∨ gm.new_h1 < 1 ∨ gm.new_w2 < 1 ∨ gm.new_h2 < 1) :
    combine_overlay_equal resample img1 img2 cs padR bg = .error .valueError := by
  unfold combine_overlay_equal
  rw [hgm, bind_ok_eq]
  by_cases hc1 : 1 ≤ gm.new_w1 ∧ 1 ≤ gm.new_h1
  · rw [pil_resize_ok resample img1 _ _ hc1, bind_ok_eq]
    have hc2 : ¬(1 ≤ gm.new_w2 ∧ 1 ≤ gm.new_h2) := by
      rcases hd with h | h | h | h <;> omega
    rw [pil_resize_err resample img2 _ _ hc2, bind_err_eq]
  · rw [pil_resize_err resample img1 _ _ hc1, bind_err_eq]

theorem hero_err_of_dim (resample : Resample) (img1 img2 : Img) (cs padR : ℕ)
    (bg : BgMode) (hf : Bool) (gm : HeroGeom)
    (hgm : overlay_hero_geom img1.w img1.h img2.w img2.h cs padR hf = .ok gm)
    (hd : gm.new_w_h < 1 ∨ gm.new_h_h < 1 ∨ gm.new_w_s < 1 ∨ gm.new_h_s < 1) :
    combine_overlay_hero resample img1 img2 cs padR bg hf = .error .valueError := by
  unfold combine_overlay_hero
  rw [hgm, bind_ok_eq]
  by_cases hc1 : 1 ≤ gm.new_w_h ∧ 1 ≤ gm.new_h_h
  · rw [pil_resize_ok resample _ _ _ hc1, bind_ok_eq]
    have hc2 : ¬(1 ≤ gm.new_w_s ∧ 1 ≤ gm.new_h_s) := by
      rcases hd with h | h | h | h <;> omega
    rw [pil_resize_err resample _ _ _ hc2, bind_err_eq]
  · rw [pil_resize_err resample _ _ _ hc1, bind_err_eq]

/-! ### Claim C9 -/

/-- Claim C9 counterexample: at canvas size 512 with the 5% gap slider the
code computes `gap_px = int(512 * 0.05) = int(25.6) = 25`, while
round-to-nearest gives 26 — so `gapPx = round(canvasSize*gapRatio)` is
false of the code (it truncates). -/
theorem c9_counterexample :
    gap_px 512 5 = 25 ∧
    round (((512 : ℕ) : ℚ) * (((5 : ℕ) : ℚ) / 100)) = 26 ∧
    gap_px 512 5 ≠ round (((512 : ℕ) : ℚ) * (((5 : ℕ) : ℚ) / 100)) := by
  refine ⟨?_, ?_, ?_⟩ <;> with_unfolding_all decide

/-- Claim C9 (corrected): the gap and padding pixel counts are
`int(canvasSize * ratio/100)` — truncation toward zero, which for these
non-negative products is the floor, not round-to-nearest — and each differs
from round-to-nearest by at most 1. -/
theorem c9_amended (cs gapR padR : ℕ) :
    gap_px cs gapR = ⌊(cs : ℚ) * ((gapR : ℚ) / 100)⌋ ∧
    padding_px cs padR = ⌊(cs : ℚ) * ((padR : ℚ) / 100)⌋ ∧
    |gap_px cs gapR - round ((cs : ℚ) * ((gapR : ℚ) / 100))| ≤ 1 ∧
    |padding_px cs padR - round ((cs : ℚ) * ((padR : ℚ) / 100))| ≤ 1 := by
  have hg : (0 : ℚ) ≤ (cs : ℚ) * ((gapR : ℚ) / 100) := by positivity
  have hp : (0 : ℚ) ≤ (cs : ℚ) * ((padR : ℚ) / 100) := by positivity
  unfold gap_px padding_px
  refine ⟨pytrunc_of_nonneg hg, pytrunc_of_nonneg hp, ?_, ?_⟩
  · rw [pytrunc_of_nonneg hg]; exact floor_round_close _
  · rw [pytrunc_of_nonneg hp]; exact floor_round_close _

/-! ### Claim C3 -/

/-- Claim C3 counterexample: with a first image of height 0 (10×0 against
10×10) the side-by-side scale computation divides `avail_height` by zero
and raises `ZeroDivisionError` instead of falling back to an alternate
constraint — the layout functions are not total over zero dimensions. -/
theorem c3_counterexample :
    combine_side_by_side_geom 10 0 10 10 1000 5 5 = .error .zeroDivisionError := by
  with_unfolding_all decide

/-- Claim C3 (corrected): only the width divisions are guarded by a
fallback (`if (w1+w2) > 0 else s_height`, `if max_w > 0 else s_height`);
the height divisions of all three layouts and both overlay-hero divisions
are unguarded.  Precisely: side-by-side geometry succeeds iff both heights
are nonzero, overlay-equal iff at least one height is nonzero, and
overlay-hero iff at least one height and at least one width are nonzero;
otherwise a `ZeroDivisionError` is raised. -/
theorem c3_amended :
    (∀ w1 h1 w2 h2 cs gapR padR : ℕ,
      excIsOk (combine_side_by_side_geom w1 h1 w2 h2 cs gapR padR) = true ↔
        h1 ≠ 0 ∧ h2 ≠ 0) ∧
    (∀ w1 h1 w2 h2 cs padR : ℕ,
      excIsOk (overlay_equal_geom w1 h1 w2 h2 cs padR) = true ↔
        ¬(h1 = 0 ∧ h2 = 0)) ∧
    (∀ (w1 h1 w2 h2 cs padR : ℕ) (hf : Bool),
      excIsOk (overlay_hero_geom w1 h1 w2 h2 cs padR hf) = true ↔
        ¬(h1 = 0 ∧ h2 = 0) ∧ ¬(w1 = 0 ∧ w2 = 0)) := by
  refine ⟨?_, ?_, ?_⟩
  · intro w1 h1 w2 h2 cs gapR padR
    constructor
    · intro h
      cases hg : combine_side_by_side_geom w1 h1 w2 h2 cs gapR padR with
      | ok gm => obtain ⟨hh1, hh2, -⟩ := sbs_geom_inv hg; exact ⟨hh1, hh2⟩
      | error e => rw [hg] at h; simp [excIsOk] at h
    · rintro ⟨hh1, hh2⟩
      rw [sbs_geom_eq _ _ _ _ _ _ _ hh1 hh2]
      rfl
  · intro w1 h1 w2 h2 cs padR
    constructor
    · intro h
      cases hg : overlay_equal_geom w1 h1 w2 h2 cs padR with
      | ok gm => exact (eq_geom_inv hg).1
      | error e => rw [hg] at h; simp [excIsOk] at h
    · intro hh
      rw [eq_geom_eq _ _ _ _ _ _ hh]
      rfl
  · intro w1 h1 w2 h2 cs padR hf
    constructor
    · intro h
      cases hg : overlay_hero_geom w1 h1 w2 h2 cs padR hf with
      | ok gm => obtain ⟨hh, hw, -⟩ := hero_geom_inv hg; exact ⟨hh, hw⟩
      | error e => rw [hg] at h; simp [excIsOk] at h
    · rintro ⟨hh, hw⟩
      rw [hero_geom_eq _ _ _ _ _ _ _ hh hw]
      rfl

/-- Claim C3 witness: concrete instances of the amended characterization. -/
theorem c3_witness :
    excIsOk (combine_side_by_side_geom 3 4 5 6 1000 5 5) = true ∧
    excIsOk (combine_side_by_side_geom 3 0 5 6 1000 5 5) = false ∧
    excIsOk (overlay_hero_geom 7 8 9 10 1000 5 true) = true := by
  refine ⟨?_, ?_, ?_⟩
  · exact (c3_amended.1 3 4 5 6 1000 5 5).mpr (by omega)
  · with_unfolding_all decide
  · exact (c3_amended.2.2 7 8 9 10 1000 5 true).mpr (by omega)

/-! ### Claim C6 -/

/-- Claim C6 (confirmed): in side-by-side the single uniform scale equals
`min(min(availHeight/h1, availHeight/h2), availWidth/(w1+w2))`, and on the
spec's concrete scenario — 100×200 and 100×100 at canvas 1000, 5% gap, 5%
padding — the scale is 17/4 = 4.25 and the resized sizes are 425×850 and
425×425. -/
theorem c6 :
    (∀ (w1 h1 w2 h2 cs gapR padR : ℕ) (gm : SBSGeom), 0 < w1 + w2 →
      combine_side_by_side_geom w1 h1 w2 h2 cs gapR padR = .ok gm →
      gm.s = min (min (((sbs_avail_height cs padR : ℤ) : ℚ) / ((h1 : ℕ) : ℚ))
                      (((sbs_avail_height cs padR : ℤ) : ℚ) / ((h2 : ℕ) : ℚ)))
                 (((sbs_avail_width cs gapR padR : ℤ) : ℚ) / (((w1 : ℕ) : ℚ) + ((w2 : ℕ) : ℚ)))) ∧
    combine_side_by_side_geom 100 200 100 100 1000 5 5 =
      .ok ⟨50, 50, 17 / 4, 425, 850, 425, 425, 50, 525, 75, 500⟩ := by
  constructor
  · intro w1 h1 w2 h2 cs gapR padR gm hpos hgm
    obtain ⟨-, -, rfl⟩ := sbs_geom_inv hgm
    simp only [sbs_fn]
    rw [if_pos hpos]
  · with_unfolding_all decide

/-- Claim C6 witness: the general scale formula applied at the spec's
concrete scenario. -/
theorem c6_witness :
    (0 < 100 + 100) ∧
    combine_side_by_side_geom 100 200 100 100 1000 5 5 =
      .ok ⟨50, 50, 17 / 4, 425, 850, 425, 425, 50, 525, 75, 500⟩ ∧
    (⟨50, 50, 17 / 4, 425, 850, 425, 425, 50, 525, 75, 500⟩ : SBSGeom).s =
      min (min (((sbs_avail_height 1000 5 : ℤ) : ℚ) / ((200 : ℕ) : ℚ))
               (((sbs_avail_height 1000 5 : ℤ) : ℚ) / ((100 : ℕ) : ℚ)))
          (((sbs_avail_width 1000 5 5 : ℤ) : ℚ) / (((100 : ℕ) : ℚ) + ((100 : ℕ) : ℚ))) :=
  ⟨by norm_num, c6.2, c6.1 100 200 100 100 1000 5 5 _ (by norm_num) c6.2⟩

/-! ### Claim C7 -/

/-- Claim C7 (confirmed): in side-by-side the two resized images'
horizontal extents are disjoint (image1's right edge `x1 + new_w1` is at or
left of image2's left edge `x2`), and the horizontal distance between them
differs from `round(canvasSize * gapRatio)` by at most one pixel. -/
theorem c7 (w1 h1 w2 h2 cs gapR padR : ℕ) (gm : SBSGeom)
    (hgm : combine_side_by_side_geom w1 h1 w2 h2 cs gapR padR = .ok gm) :
    gm.x1 + gm.new_w1 ≤ gm.x2 ∧
    |gm.x2 - (gm.x1 + gm.new_w1) - round ((cs : ℚ) * ((gapR : ℚ) / 100))| ≤ 1 := by
  obtain ⟨-, -, rfl⟩ := sbs_geom_inv hgm
  have hq : (0 : ℚ) ≤ (cs : ℚ) * ((gapR : ℚ) / 100) := by positivity
  have hfl : pytrunc ((cs : ℚ) * ((gapR : ℚ) / 100)) = ⌊(cs : ℚ) * ((gapR : ℚ) / 100)⌋ :=
    pytrunc_of_nonneg hq
  have hnn : 0 ≤ ⌊(cs : ℚ) * ((gapR : ℚ) / 100)⌋ := Int.floor_nonneg.mpr hq
  have hcl := abs_le.mp (floor_round_close ((cs : ℚ) * ((gapR : ℚ) / 100)))
  constructor
  · simp only [sbs_fn, gap_px]
    omega
  · rw [abs_le]
    simp only [sbs_fn, gap_px]
    omega

/-- Claim C7 witness: disjointness and the gap bound at a concrete input
(two 1×1 images on a 512 canvas with 5% gap and padding; the code gap is
25 while round gives 26, exactly one pixel apart). -/
theorem c7_witness :
    combine_side_by_side_geom 1 1 1 1 512 5 5 =
      .ok ⟨25, 25, 437 / 2, 218, 218, 218, 218, 25, 268, 147, 147⟩ ∧
    ((⟨25, 25, 437 / 2, 218, 218, 218, 218, 25, 268, 147, 147⟩ : SBSGeom).x1 +
        (⟨25, 25, 437 / 2, 218, 218, 218, 218, 25, 268, 147, 147⟩ : SBSGeom).new_w1 ≤
        (⟨25, 25, 437 / 2, 218, 218, 218, 218, 25, 268, 147, 147⟩ : SBSGeom).x2 ∧
      |(⟨25, 25, 437 / 2, 218, 218, 218, 218, 25, 268, 147, 147⟩ : SBSGeom).x2 -
          ((⟨25, 25, 437 / 2, 218, 218, 218, 218, 25, 268, 147, 147⟩ : SBSGeom).x1 +
            (⟨25, 25, 437 / 2, 218, 218, 218, 218, 25, 268, 147, 147⟩ : SBSGeom).new_w1) -
          round (((512 : ℕ) : ℚ) * (((5 : ℕ) : ℚ) / 100))| ≤ 1) := by
  have h : combine_side_by_side_geom 1 1 1 1 512 5 5 =
      .ok ⟨25, 25, 437 / 2, 218, 218, 218, 218, 25, 268, 147, 147⟩ := by
    with_unfolding_all decide
  exact ⟨h, c7 1 1 1 1 512 5 5 _ h⟩

/-! ### Claim C1 -/

/-- Claim C1 counterexample: hero 100×100 and secondary 100×200 at canvas
1000 with 5% padding give `s_hero = 6`, hero resized height 600, but a
secondary resized height of 900 — not 0.75·600 = 450.  The secondary's
height is not `HERO_SCALE_FACTOR` times the hero's resized height and it
does depend on the secondary's own original dimensions. -/
theorem c1_counterexample :
    overlay_hero_geom 100 100 100 200 1000 5 true =
      .ok ⟨50, 144, 6, 9 / 2, 600, 600, 450, 900, 128, 200, 347, 50⟩ ∧
    ¬(((900 : ℤ) : ℚ) = HERO_SCALE_FACTOR * ((600 : ℤ) : ℚ)) := by
  refine ⟨?_, ?_⟩ <;> with_unfolding_all decide

/-- Claim C1 (corrected): the configured ratio applies to the scale
factors, not to the heights: `s_sec = HERO_SCALE_FACTOR * s_hero`, and the
secondary's resized height is `int(h_s * s_sec)` — a function of the
secondary's own original height, equal to 0.75 times the hero's resized
height only when the two originals share the same height. -/
theorem c1_amended (w1 h1 w2 h2 cs padR : ℕ) (hf : Bool) (gm : HeroGeom)
    (hgm : overlay_hero_geom w1 h1 w2 h2 cs padR hf = .ok gm) :
    gm.s_sec = HERO_SCALE_FACTOR * gm.s_hero ∧
    gm.new_h_s = pytrunc ((if hf then ((h2 : ℕ) : ℚ) else ((h1 : ℕ) : ℚ)) * gm.s_sec) := by
  obtain ⟨-, -, rfl⟩ := hero_geom_inv hgm
  constructor
  · simp only [hero_fn]
    exact mul_comm _ _
  · simp only [hero_fn]

/-- Claim C1 witness: the amended statement applied at the counterexample
input. -/
theorem c1_witness :
    overlay_hero_geom 100 100 100 200 1000 5 true =
      .ok ⟨50, 144, 6, 9 / 2, 600, 600, 450, 900, 128, 200, 347, 50⟩ ∧
    ((⟨50, 144, 6, 9 / 2, 600, 600, 450, 900, 128, 200, 347, 50⟩ : HeroGeom).s_sec =
        HERO_SCALE_FACTOR *
          (⟨50, 144, 6, 9 / 2, 600, 600, 450, 900, 128, 200, 347, 50⟩ : HeroGeom).s_hero ∧
      (⟨50, 144, 6, 9 / 2, 600, 600, 450, 900, 128, 200, 347, 50⟩ : HeroGeom).new_h_s =
        pytrunc ((if true then ((200 : ℕ) : ℚ) else ((100 : ℕ) : ℚ)) *
          (⟨50, 144, 6, 9 / 2, 600, 600, 450, 900, 128, 200, 347, 50⟩ : HeroGeom).s_sec)) := by
  have h : overlay_hero_geom 100 100 100 200 1000 5 true =
      .ok ⟨50, 144, 6, 9 / 2, 600, 600, 450, 900, 128, 200, 347, 50⟩ := by
    with_unfolding_all decide
  exact ⟨h, c1_amended 100 100 100 200 1000 5 true _ h⟩

/-! ### Claim C2 -/

/-- Claim C2 counterexample: hero 100×100 and secondary 50×50 at canvas
1000 with 10% padding place the secondary's top edge at y = 350, strictly
above the hero's bottom edge y = 100 + 800 = 900 — so the secondary is not
placed at the hero's bottom edge plus a downward drop (the function has no
dropRatio parameter at all). -/
theorem c2_counterexample :
    overlay_hero_geom 100 100 50 50 1000 10 true =
      .ok ⟨100, 128, 8, 6, 800, 800, 300, 300, 36, 100, 414, 350⟩ ∧
    (⟨100, 128, 8, 6, 800, 800, 300, 300, 36, 100, 414, 350⟩ : HeroGeom).y_s <
      (⟨100, 128, 8, 6, 800, 800, 300, 300, 36, 100, 414, 350⟩ : HeroGeom).y_h +
        (⟨100, 128, 8, 6, 800, 800, 300, 300, 36, 100, 414, 350⟩ : HeroGeom).new_h_h := by
  refine ⟨?_, ?_⟩ <;> with_unfolding_all decide

/-- Claim C2 (corrected): the secondary is vertically centered on the
canvas — `y_s = canvas_size//2 - new_h_s//2` — with no dropRatio-derived
offset and no clamping. -/
theorem c2_amended (w1 h1 w2 h2 cs padR : ℕ) (hf : Bool) (gm : HeroGeom)
    (hgm : overlay_hero_geom w1 h1 w2 h2 cs padR hf = .ok gm) :
    gm.y_s = Int.fdiv (cs : ℤ) 2 - Int.fdiv gm.new_h_s 2 := by
  obtain ⟨-, -, rfl⟩ := hero_geom_inv hgm
  simp only [hero_fn]

/-- Claim C2 witness: the amended statement applied at the counterexample
input. -/
theorem c2_witness :
    overlay_hero_geom 100 100 50 50 1000 10 true =
      .ok ⟨100, 128, 8, 6, 800, 800, 300, 300, 36, 100, 414, 350⟩ ∧
    (⟨100, 128, 8, 6, 800, 800, 300, 300, 36, 100, 414, 350⟩ : HeroGeom).y_s =
      Int.fdiv ((1000 : ℕ) : ℤ) 2 -
        Int.fdiv (⟨100, 128, 8, 6, 800, 800, 300, 300, 36, 100, 414, 350⟩ : HeroGeom).new_h_s 2 := by
  have h : overlay_hero_geom 100 100 50 50 1000 10 true =
      .ok ⟨100, 128, 8, 6, 800, 800, 300, 300, 36, 100, 414, 350⟩ := by
    with_unfolding_all decide
  exact ⟨h, c2_amended 100 100 50 50 1000 10 true _ h⟩

/-! ### Claim C4 -/

theorem sbs_new_w1_nonpos (w1 h1 w2 h2 cs gapR padR : ℕ)
    (haw : sbs_avail_width cs gapR padR ≤ 0) :
    (sbs_fn w1 h1 w2 h2 cs gapR padR).new_w1 ≤ 0 := by
  simp only [sbs_fn]
  apply pytrunc_nonpos
  by_cases hpos : 0 < w1 + w2
  · rw [if_pos hpos]
    have hawQ : ((sbs_avail_width cs gapR padR : ℤ) : ℚ) ≤ 0 := by exact_mod_cast haw
    have hdpos : (0 : ℚ) < (w1 : ℚ) + (w2 : ℚ) := by exact_mod_cast hpos
    have hsw : ((sbs_avail_width cs gapR padR : ℤ) : ℚ) / ((w1 : ℚ) + (w2 : ℚ)) ≤ 0 :=
      div_nonpos_iff.mpr (Or.inr ⟨hawQ, hdpos.le⟩)
    exact mul_nonpos_iff.mpr (Or.inl ⟨Nat.cast_nonneg _, le_trans (min_le_right _ _) hsw⟩)
  · rw [if_neg hpos]
    have hw0 : w1 = 0 := by omega
    subst hw0
    simp

/-- Claim C4 counterexample: canvas 100 with 20% gap and 45% padding gives
`avail_width = 100 - 90 - 20 = -10 ≤ 0`; with two 10×10 inputs the scale is
negative, the target size is `int(-5) = -5`, and the resize raises
`ValueError` — no canvas is returned. -/
theorem c4_counterexample :
    sbs_avail_width 100 20 45 ≤ 0 ∧
    combine_side_by_side zeroResample (solidImg 10 10 true redPx)
      (solidImg 10 10 true bluePx) 100 20 45 .white = .error .valueError := by
  constructor
  · with_unfolding_all decide
  · with_unfolding_all rfl

/-- Claim C4 (corrected): a degenerate `avail_width ≤ 0` does not produce a
canvas; with nonzero input heights (so the scale computation itself
succeeds) `combine_side_by_side` always raises `ValueError` from the
resize, because the computed target width of image1 is ≤ 0. -/
theorem c4_amended (resample : Resample) (img1 img2 : Img) (cs gapR padR : ℕ)
    (bg : BgMode) (hh1 : img1.h ≠ 0) (hh2 : img2.h ≠ 0)
    (haw : sbs_avail_width cs gapR padR ≤ 0) :
    combine_side_by_side resample img1 img2 cs gapR padR bg = .error .valueError := by
  have hgm := sbs_geom_eq img1.w img1.h img2.w img2.h cs gapR padR hh1 hh2
  refine sbs_err_of_dim resample img1 img2 cs gapR padR bg _ hgm (Or.inl ?_)
  have h := sbs_new_w1_nonpos img1.w img1.h img2.w img2.h cs gapR padR haw
  omega

/-- Claim C4 witness: the amended statement applied at the counterexample
input. -/
theorem c4_witness :
    (solidImg 10 10 true redPx).h ≠ 0 ∧ (solidImg 10 10 true bluePx).h ≠ 0 ∧
    sbs_avail_width 100 20 45 ≤ 0 ∧
    combine_side_by_side zeroResample (solidImg 10 10 true redPx)
      (solidImg 10 10 true bluePx) 100 20 45 .white = .error .valueError := by
  refine ⟨by decide, by decide, by with_unfolding_all decide,
    c4_amended zeroResample _ _ 100 20 45 .white (by decide) (by decide)
      (by with_unfolding_all decide)⟩

/-! ### Claim C5 -/

/-- Claim C5 counterexample: two 1×1000 images at canvas 1000 (5% gap and
padding) give scale 0.9 and a computed target width `int(1 * 0.9) = 0` —
no 1-pixel floor is applied, and the subsequent resize raises. -/
theorem c5_counterexample :
    combine_side_by_side_geom 1 1000 1 1000 1000 5 5 =
      .ok ⟨50, 50, 9 / 10, 0, 900, 0, 900, 475, 525, 50, 50⟩ ∧
    ¬(1 ≤ (⟨50, 50, 9 / 10, 0, 900, 0, 900, 475, 525, 50, 50⟩ : SBSGeom).new_w1) ∧
    combine_side_by_side zeroResample (solidImg 1 1000 true redPx)
      (solidImg 1 1000 true bluePx) 1000 5 5 .white = .error .valueError := by
  refine ⟨?_, ?_, ?_⟩
  · with_unfolding_all decide
  · with_unfolding_all decide
  · with_unfolding_all rfl

/-- Claim C5 (corrected): target dimensions are `int(dim*s)` with no floor
at 1 pixel; whenever any computed target dimension is below 1, in any of
the three layout strategies, the resize raises `ValueError` instead of the
dimension being clamped to 1. -/
theorem c5_amended :
    (∀ (resample : Resample) (img1 img2 : Img) (cs gapR padR : ℕ) (bg : BgMode)
        (gm : SBSGeom),
      combine_side_by_side_geom img1.w img1.h img2.w img2.h cs gapR padR = .ok gm →
      gm.new_w1 < 1 ∨ gm.new_h1 < 1 ∨ gm.new_w2 < 1 ∨ gm.new_h2 < 1 →
      combine_side_by_side resample img1 img2 cs gapR padR bg = .error .valueError) ∧
    (∀ (resample : Resample) (img1 img2 : Img) (cs padR : ℕ) (bg : BgMode)
        (gm : EqGeom),
      overlay_equal_geom img1.w img1.h img2.w img2.h cs padR = .ok gm →
      gm.new_w1 < 1 ∨ gm.new_h1 < 1 ∨ gm.new_w2 < 1 ∨ gm.new_h2 < 1 →
      combine_overlay_equal resample img1 img2 cs padR bg = .error .valueError) ∧
    (∀ (resample : Resample) (img1 img2 : Img) (cs padR : ℕ) (bg : BgMode)
        (hf : Bool) (gm : HeroGeom),
      overlay_hero_geom img1.w img1.h img2.w img2.h cs padR hf = .ok gm →
      gm.new_w_h < 1 ∨ gm.new_h_h < 1 ∨ gm.new_w_s < 1 ∨ gm.new_h_s < 1 →
      combine_overlay_hero resample img1 img2 cs padR bg hf = .error .valueError) :=
  ⟨fun resample img1 img2 cs gapR padR bg gm hgm hd =>
      sbs_err_of_dim resample img1 img2 cs gapR padR bg gm hgm hd,
    fun resample img1 img2 cs padR bg gm hgm hd =>
      eq_err_of_dim resample img1 img2 cs padR bg gm hgm hd,
    fun resample img1 img2 cs padR bg hf gm hgm hd =>
      hero_err_of_dim resample img1 img2 cs padR bg hf gm hgm hd⟩

/-- Claim C5 witness: the amended statement applied at the counterexample
input (target width 0 < 1 in the side-by-side strategy). -/
theorem c5_witness :
    combine_side_by_side_geom (solidImg 1 1000 true redPx).w (solidImg 1 1000 true redPx).h
        (solidImg 1 1000 true bluePx).w (solidImg 1 1000 true bluePx).h 1000 5 5 =
      .ok ⟨50, 50, 9 / 10, 0, 900, 0, 900, 475, 525, 50, 50⟩ ∧
    combine_side_by_side zeroResample (solidImg 1 1000 true redPx)
      (solidImg 1 1000 true bluePx) 1000 5 5 .white = .error .valueError := by
  have h : combine_side_by_side_geom (solidImg 1 1000 true redPx).w
      (solidImg 1 1000 true redPx).h (solidImg 1 1000 true bluePx).w
      (solidImg 1 1000 true bluePx).h 1000 5 5 =
      .ok ⟨50, 50, 9 / 10, 0, 900, 0, 900, 475, 525, 50, 50⟩ := by
    with_unfolding_all decide
  exact ⟨h, c5_amended.1 zeroResample _ _ 1000 5 5 .white _ h (Or.inl (by decide))⟩

/-! ### Pixel-level lemmas and claims C8, C10 -/

theorem paste_front_px (bg fg : Img) (x y u v : ℤ) (hfg : fg.rgba = true)
    (hin : x ≤ u ∧ u < x + (fg.w : ℤ) ∧ y ≤ v ∧ v < y + (fg.h : ℤ))
    (ha : (fg.px (u - x) (v - y)).a = 255) :
    ((paste_with_alpha bg fg x y).px u v).r = (fg.px (u - x) (v - y)).r ∧
    ((paste_with_alpha bg fg x y).px u v).g = (fg.px (u - x) (v - y)).g ∧
    ((paste_with_alpha bg fg x y).px u v).b = (fg.px (u - x) (v - y)).b := by
  obtain ⟨h1, h2, h3, h4⟩ := hin
  have hin0 : 0 ≤ u - x ∧ u - x < 0 + (fg.w : ℤ) ∧ 0 ≤ v - y ∧ v - y < 0 + (fg.h : ℤ) := by
    omega
  cases hbg : bg.rgba with
  | true =>
    have hpaste : paste_with_alpha bg fg x y = pasteMask bg fg x y := by
      unfold paste_with_alpha
      rw [hfg, hbg]
      rfl
    rw [hpaste]
    unfold pasteMask
    dsimp only
    rw [if_pos ⟨h1, h2, h3, h4⟩, hbg]
    simp [ha, blend_full]
  | false =>
    have hpaste : paste_with_alpha bg fg x y =
        pasteOpaque bg
          (pasteMask ⟨fg.w, fg.h, false, fun _ _ =>
            ⟨(bg.px 0 0).r, (bg.px 0 0).g, (bg.px 0 0).b, 255⟩⟩ fg 0 0) x y := by
      unfold paste_with_alpha
      rw [hfg, hbg]
      rfl
    rw [hpaste]
    unfold pasteOpaque pasteMask
    dsimp only
    rw [if_pos ⟨h1, h2, h3, h4⟩, if_pos hin0]
    simp [ha, blend_full]

/-- Claim C8 (confirmed): in `combine_overlay_equal` image1 is composited
before image2; at every canvas pixel inside both pasted rectangles where
both resized images are fully opaque, the resulting pixel carries image2's
colour — the second input is always the front layer. -/
theorem c8 (resample : Resample) (img1 img2 : Img) (cs padR : ℕ) (bg : BgMode)
    (gm : EqGeom) (u v : ℤ)
    (hgm : overlay_equal_geom img1.w img1.h img2.w img2.h cs padR = .ok gm)
    (h1m : img1.rgba = true) (h2m : img2.rgba = true)
    (hin1 : gm.x1 ≤ u ∧ u < gm.x1 + gm.new_w1 ∧ gm.y1 ≤ v ∧ v < gm.y1 + gm.new_h1)
    (ha1 : (resample img1 gm.new_w1.toNat gm.new_h1.toNat (u - gm.x1) (v - gm.y1)).a = 255)
    (hin2 : gm.x2 ≤ u ∧ u < gm.x2 + gm.new_w2 ∧ gm.y2 ≤ v ∧ v < gm.y2 + gm.new_h2)
    (ha2 : (resample img2 gm.new_w2.toNat gm.new_h2.toNat (u - gm.x2) (v - gm.y2)).a = 255) :
    (pixAt (combine_overlay_equal resample img1 img2 cs padR bg) u v).r =
      (resample img2 gm.new_w2.toNat gm.new_h2.toNat (u - gm.x2) (v - gm.y2)).r ∧
    (pixAt (combine_overlay_equal resample img1 img2 cs padR bg) u v).g =
      (resample img2 gm.new_w2.toNat gm.new_h2.toNat (u - gm.x2) (v - gm.y2)).g ∧
    (pixAt (combine_overlay_equal resample img1 img2 cs padR bg) u v).b =
      (resample img2 gm.new_w2.toNat gm.new_h2.toNat (u - gm.x2) (v - gm.y2)).b := by
  have hd1 : 1 ≤ gm.new_w1 ∧ 1 ≤ gm.new_h1 := by
    obtain ⟨a, b, c, d⟩ := hin1
    constructor <;> omega
  have hd2 : 1 ≤ gm.new_w2 ∧ 1 ≤ gm.new_h2 := by
    obtain ⟨a, b, c, d⟩ := hin2
    constructor <;> omega
  have hok : combine_overlay_equal resample img1 img2 cs padR bg =
      .ok (paste_with_alpha
            (paste_with_alpha (make_canvas bg cs)
              ⟨gm.new_w1.toNat, gm.new_h1.toNat, img1.rgba,
                resample img1 gm.new_w1.toNat gm.new_h1.toNat⟩ gm.x1 gm.y1)
            ⟨gm.new_w2.toNat, gm.new_h2.toNat, img2.rgba,
              resample img2 gm.new_w2.toNat gm.new_h2.toNat⟩ gm.x2 gm.y2) := by
    unfold combine_overlay_equal
    rw [hgm, bind_ok_eq, pil_resize_ok resample img1 _ _ hd1, bind_ok_eq,
      pil_resize_ok resample img2 _ _ hd2, bind_ok_eq]
  rw [hok]
  simp only [pixAt]
  have hw2 : ((gm.new_w2.toNat : ℕ) : ℤ) = gm.new_w2 := Int.toNat_of_nonneg (by omega)
  have hh2 : ((gm.new_h2.toNat : ℕ) : ℤ) = gm.new_h2 := Int.toNat_of_nonneg (by omega)
  refine paste_front_px _ _ gm.x2 gm.y2 u v h2m ⟨hin2.1, ?_, hin2.2.2.1, ?_⟩ ha2
  · show u < gm.x2 + ((gm.new_w2.toNat : ℕ) : ℤ)
    rw [hw2]
    exact hin2.2.1
  · show v < gm.y2 + ((gm.new_h2.toNat : ℕ) : ℤ)
    rw [hh2]
    exact hin2.2.2.2

/-- Claim C8 witness: two solid opaque 2×2 rasters (red and blue) on a
white 100-canvas with 5% padding; at the overlap pixel (40,40) the result
is blue, image2's colour. -/
theorem c8_witness :
    overlay_equal_geom (solidImg 2 2 true redPx).w (solidImg 2 2 true redPx).h
        (solidImg 2 2 true bluePx).w (solidImg 2 2 true bluePx).h 100 5 =
      .ok ⟨5, 14, 38, 76, 76, 76, 76, 5, 19, 12, 12⟩ ∧
    (pixAt (combine_overlay_equal zeroResample (solidImg 2 2 true redPx)
        (solidImg 2 2 true bluePx) 100 5 .white) 40 40).r = 0 ∧
    (pixAt (combine_overlay_equal zeroResample (solidImg 2 2 true redPx)
        (solidImg 2 2 true bluePx) 100 5 .white) 40 40).g = 0 ∧
    (pixAt (combine_overlay_equal zeroResample (solidImg 2 2 true redPx)
        (solidImg 2 2 true bluePx) 100 5 .white) 40 40).b = 255 := by
  have h : overlay_equal_geom (solidImg 2 2 true redPx).w (solidImg 2 2 true redPx).h
      (solidImg 2 2 true bluePx).w (solidImg 2 2 true bluePx).h 100 5 =
      .ok ⟨5, 14, 38, 76, 76, 76, 76, 5, 19, 12, 12⟩ := by
    with_unfolding_all decide
  have hc := c8 zeroResample (solidImg 2 2 true redPx) (solidImg 2 2 true bluePx) 100 5
    .white ⟨5, 14, 38, 76, 76, 76, 76, 5, 19, 12, 12⟩ 40 40 h rfl rfl (by decide) rfl
    (by decide) rfl
  exact ⟨h, hc.1, hc.2.1, hc.2.2⟩

/-- Claim C10 (confirmed): when `paste_with_alpha` receives an RGBA source
and an RGB canvas it flattens the source against the canvas's pixel at
(0,0) read at call time: wherever the source's alpha is 0 the pasted pixel
equals the canvas's current (0,0) colour — so after an earlier paste has
covered (0,0), a later source's transparent regions are filled with that
earlier pasted colour, not with the canvas's original background fill. -/
theorem c10 (bg fg : Img) (x y u v : ℤ) (hbg : bg.rgba = false)
    (hfg : fg.rgba = true)
    (hin : x ≤ u ∧ u < x + (fg.w : ℤ) ∧ y ≤ v ∧ v < y + (fg.h : ℤ))
    (ha : (fg.px (u - x) (v - y)).a = 0) :
    ((paste_with_alpha bg fg x y).px u v).r = (bg.px 0 0).r ∧
    ((paste_with_alpha bg fg x y).px u v).g = (bg.px 0 0).g ∧
    ((paste_with_alpha bg fg x y).px u v).b = (bg.px 0 0).b := by
  obtain ⟨h1, h2, h3, h4⟩ := hin
  have hin0 : 0 ≤ u - x ∧ u - x < 0 + (fg.w : ℤ) ∧ 0 ≤ v - y ∧ v - y < 0 + (fg.h : ℤ) := by
    omega
  have hpaste : paste_with_alpha bg fg x y =
      pasteOpaque bg
        (pasteMask ⟨fg.w, fg.h, false, fun _ _ =>
          ⟨(bg.px 0 0).r, (bg.px 0 0).g, (bg.px 0 0).b, 255⟩⟩ fg 0 0) x y := by
    unfold paste_with_alpha
    rw [hfg, hbg]
    rfl
  rw [hpaste]
  unfold pasteOpaque pasteMask
  dsimp only
  rw [if_pos ⟨h1, h2, h3, h4⟩, if_pos hin0]
  simp [ha, blend_zero]

/-- Claim C10 witness: a white RGB canvas, first pasted with an opaque red
4×4 raster covering (0,0), then pasted with a source transparent at its
(0,0) pixel placed at (10,10): the transparent spot comes out red (the
earlier pasted colour), not white (the original background). -/
theorem c10_witness :
    ((paste_with_alpha (paste_with_alpha (make_canvas .white 100)
        (solidImg 4 4 true redPx) 0 0) holeImg 10 10).px 10 10).r = 255 ∧
    ((paste_with_alpha (paste_with_alpha (make_canvas .white 100)
        (solidImg 4 4 true redPx) 0 0) holeImg 10 10).px 10 10).g = 0 ∧
    ((paste_with_alpha (paste_with_alpha (make_canvas .white 100)
        (solidImg 4 4 true redPx) 0 0) holeImg 10 10).px 10 10).b = 0 := by
  have h := c10 (paste_with_alpha (make_canvas .white 100) (solidImg 4 4 true redPx) 0 0)
    holeImg 10 10 10 10 rfl rfl (by decide) rfl
  exact ⟨h.1, h.2.1, h.2.2⟩

end App
